import Mathlib

/-!
# Verification of the mojito cocktail site components

Shallow embedding of the repository's React components (`App.jsx`,
`Navbar.jsx`, `Hero.jsx`) and of the traces of GSAP library calls their
animation-setup callbacks issue.  Markup is modelled as a tree of nodes;
a `useGSAP` callback is modelled as the trace of library calls it makes
(text splits, standalone tweens, timelines with their scroll-trigger
configuration, and deferred callback registrations).  Numeric GSAP
parameters are kept as the literal strings of the source to avoid
floating point.
-/

/-- A rendered markup node: an element with tag, attributes and children,
a text node, or a reference to a child component (as in `App.jsx`'s
composition `<Navbar/>`, `<Hero/>`, ...). -/
inductive Node where
  | elem (tag : String) (attrs : List (String × String)) (children : List Node)
  | text (s : String)
  | comp (name : String)
deriving Repr

mutual

/-- All element nodes of a tree in document order (the node itself first,
then the elements of its children, left to right). -/
def elemsOf : Node → List Node
  | .text _ => []
  | .comp _ => []
  | .elem t a cs => .elem t a cs :: elemsOfList cs

/-- All element nodes of a forest in document order. -/
def elemsOfList : List Node → List Node
  | [] => []
  | c :: cs => elemsOf c ++ elemsOfList cs

end

/-- Attribute lookup on an element node (`none` for text/component nodes). -/
def attrOf (n : Node) (key : String) : Option String :=
  match n with
  | .elem _ attrs _ => (attrs.find? (fun p => p.1 == key)).map Prod.snd
  | _ => none

/-- Split a character list into space-separated tokens (the structural
counterpart of `String.splitOn " "`); `cur` accumulates the current token
in reverse. -/
def spaceTokens : List Char → List Char → List String
  | [], cur => [String.mk cur.reverse]
  | c :: rest, cur =>
    if c = ' ' then String.mk cur.reverse :: spaceTokens rest []
    else spaceTokens rest (c :: cur)

/-- The whitespace-separated class tokens of a node's `class` attribute. -/
def classTokens (n : Node) : List String :=
  spaceTokens ((attrOf n "class").getD "").data []

/-- Does a CSS class selector `.cls` match this node? (token match on the
`class` attribute, as in the DOM). -/
def matchesClass (n : Node) (cls : String) : Bool :=
  (classTokens n).contains cls

/-- Number of elements in the tree matched by the class selector `.cls`. -/
def countClass (root : Node) (cls : String) : Nat :=
  ((elemsOf root).filter (fun n => matchesClass n cls)).length

mutual

/-- The concatenated text content of a node. -/
def textOf : Node → String
  | .text s => s
  | .comp _ => ""
  | .elem _ _ cs => textOfList cs

/-- The concatenated text content of a forest. -/
def textOfList : List Node → String
  | [] => ""
  | c :: cs => textOf c ++ textOfList cs

end

/-- The tag of a node (empty for text/component nodes). -/
def tagOf : Node → String
  | .elem t _ _ => t
  | _ => ""

/-- A GSAP scroll-trigger configuration object as written in the source:
`trigger` selector, optional `start`/`end` positions, and the `scrub` and
`pin` flags (absent keys modelled as `none`/`false`). -/
structure ScrollTriggerCfg where
  trigger : String
  startPos : Option String
  endPos : Option String
  scrub : Bool
  pin : Bool
deriving Repr, DecidableEq

/-- A tween placed on a timeline: target, `fromTo` source vars (empty for a
plain `.to`), destination vars, and the optional position parameter. -/
structure TlTween where
  target : String
  fromVars : List (String × String)
  toVars : List (String × String)
  pos : Option Int
deriving Repr, DecidableEq

/-- A GSAP timeline: its scroll-trigger configuration (if any) and the
tweens added to it synchronously during setup. -/
structure Timeline where
  st : Option ScrollTriggerCfg
  tweens : List TlTween
deriving Repr, DecidableEq

/-- A `new SplitText(selector, { type })` call. -/
structure SplitCall where
  selector : String
  splitType : String
deriving Repr, DecidableEq

/-- A standalone `gsap.from(target, vars)` entrance tween. -/
structure FromTween where
  target : String
  vars : List (String × String)
deriving Repr, DecidableEq

/-- A deferred callback registration made during setup: the DOM event the
callback is attached to, the index of the timeline it will extend, and the
tween the callback adds to that timeline when the event fires. -/
structure DeferredReg where
  event : String
  tlIdx : Nat
  tween : TlTween
deriving Repr, DecidableEq

/-- The trace of GSAP library calls made by one component's `useGSAP`
setup callback. -/
structure Setup where
  splits : List SplitCall
  fromTweens : List FromTween
  timelines : List Timeline
  deferred : List DeferredReg
deriving Repr, DecidableEq

/-- Timelines of a setup whose scroll-trigger has `scrub: true`
(scroll-scrubbed, i.e. progress tied to scroll position). -/
def scrubTimelines (s : Setup) : List Timeline :=
  s.timelines.filter (fun tl => match tl.st with
    | some cfg => cfg.scrub
    | none => false)

/-- The class named by a CSS class selector: `.cls` ↦ `cls`. -/
def selectorClass (sel : String) : String :=
  match sel.data with
  | '.' :: rest => String.mk rest
  | _ => sel

/-- Number of elements of a markup tree matched by the selectors of the
setup's SplitText calls (each selector is a class selector `.cls`). -/
def splitMatchedBlocks (s : Setup) (root : Node) : Nat :=
  (s.splits.map (fun sp => countClass root (selectorClass sp.selector))).sum

/-! ## Navbar (`src/components/Navbar.jsx`) -/

/-- Modelled from the spec: a `navLinks` entry from `constants/index.js`
(the constants file itself is not among the sources; per the spec "each
entry has an identifier and title").  The `extra` field stands for any
further payload an entry may carry that the Navbar does not read. -/
structure NavLink where
  id : String
  title : String
  extra : String
deriving Repr, DecidableEq

/-- One `<li key={link.id}><a href={`#${link.id}`}>{link.title}</a></li>`
item produced by `navLinks.map` in `Navbar.jsx`. -/
def navItem (link : NavLink) : Node :=
  .elem "li" [("key", link.id)]
    [.elem "a" [("href", "#" ++ link.id)] [.text link.title]]

/-- The markup returned by `Navbar`, as a function of the `navLinks`
list it maps over. -/
def navbarRender (navLinks : List NavLink) : Node :=
  .elem "nav" []
    [.elem "div" []
      [.elem "a" [("href", "#home"), ("class", "flex items-center gap-2")]
        [.elem "img" [("src", "/images/logo.png"), ("alt", "logo")] [],
         .elem "p" [] [.text "Velvet Pour"]],
       .elem "ul" [] (navLinks.map navItem)]]

/-- `Navbar`'s render pass paired with the constants list after the pass:
the source only maps over `navLinks` (`Array.prototype.map` allocates a
new array), so the list is returned unchanged. -/
def navbarStep (navLinks : List NavLink) : Node × List NavLink :=
  (navbarRender navLinks, navLinks)

/-- The trace of `Navbar`'s `useGSAP` callback: one timeline with a
scroll trigger on `nav` starting at `bottom top` (no scrub, no pin), and
one `fromTo` tween on `nav` transitioning the background. -/
def navbarSetup : Setup :=
  { splits := []
    fromTweens := []
    timelines :=
      [{ st := some
           { trigger := "nav", startPos := some "bottom top",
             endPos := none, scrub := false, pin := false }
         tweens :=
           [{ target := "nav"
              fromVars := [("backgroundColor", "transparent")]
              toVars :=
                [("backgroundColor", "#00000050"),
                 ("backgroundFilter", "blur(10px)"),
                 ("duration", "1"), ("ease", "power1.inOut")]
              pos := none }] }]
    deferred := [] }

/-! ## Hero (`src/components/Hero.jsx`) -/

/-- A video element as the scrubbing tween sees it: only its `duration`
(metadata) is read, kept in milliseconds to avoid floating point. -/
structure VideoElem where
  durationMs : Nat
deriving Repr, DecidableEq

/-- The markup returned by `Hero` (a fragment with the `#hero` section
and the absolutely-positioned video container). -/
def heroMarkup : Node :=
  .elem "fragment" []
    [.elem "section" [("id", "hero"), ("class", "noisy")]
      [.elem "h1" [("class", "title")] [.text "MOJITO"],
       .elem "img"
         [("src", "/images/hero-left-leaf.png"), ("alt", "left-leaf"),
          ("class", "left-leaf")] [],
       .elem "img"
         [("src", "/images/hero-right-leaf.png"), ("alt", "right-leaf"),
          ("class", "right-leaf")] [],
       .elem "div" [("class", "body")]
         [.elem "div" [("class", "content")]
           [.elem "div" [("class", "space-y-5 hidden md:block")]
             [.elem "p" [] [.text "Cool. Crisp. Classic."],
              .elem "p" [("class", "subtitle")]
                [.text "Sip the Spirit ", .elem "br" [] [],
                 .text " of Summer"]],
            .elem "div" [("class", "view-cocktails")]
             [.elem "p" [("class", "subtitle")]
               [.text "Every cocktail on our menu is a blend of premium ingredients, creative flair, and timeless recipes — designed to delight your senses."],
              .elem "a" [("href", "#cocktails")] [.text "View cocktails"]]]]],
     .elem "div" [("class", "video absolute inset-0")]
       [.elem "video"
         [("ref", "videoRef"), ("muted", ""), ("playsInline", ""),
          ("preload", "auto"), ("src", "/videos/output.mp4")] []]]

/-- `Hero`'s render as a function of the `isMobile` media-query flag: the
returned JSX never references `isMobile`, so the body is `heroMarkup`
regardless of the flag. -/
def heroRender (_isMobile : Bool) : Node :=
  heroMarkup

/-- `const startValue = isMobile ? "top 50%" : "center 60%"`. -/
def heroStartValue (isMobile : Bool) : String :=
  if isMobile then "top 50%" else "center 60%"

/-- `const endValue = isMobile ? "120% top" : "bottom top"`. -/
def heroEndValue (isMobile : Bool) : String :=
  if isMobile then "120% top" else "bottom top"

/-- The tween the `onloadedmetadata` callback adds to the video timeline:
`tl.to(videoRef.current, { currentTime: videoRef.current.duration })`. -/
def videoScrubTween (video : VideoElem) : TlTween :=
  { target := "videoRef.current"
    fromVars := []
    toVars := [("currentTime", toString video.durationMs ++ "ms")]
    pos := none }

/-- The trace of `Hero`'s `useGSAP` callback when the video ref is
attached: two SplitText calls, two entrance `gsap.from` tweens, the
parallax timeline (right leaf, left leaf, arrow — all at position 0),
the pinned video timeline with no tween yet, and the deferred
registration that adds the scrub tween to the video timeline (index 1)
once the video's metadata has loaded. -/
def mkHeroSetup (isMobile : Bool) (video : VideoElem) : Setup :=
  { splits :=
      [{ selector := ".title", splitType := "chars, words" },
       { selector := ".subtitle", splitType := "lines" }]
    fromTweens :=
      [{ target := "heroSplit.chars"
         vars :=
           [("yPercent", "100"), ("duration", "1.8"),
            ("ease", "expo.out"), ("stagger", "0.06")] },
       { target := "paragraphSplit.lines"
         vars :=
           [("opacity", "0"), ("yPercent", "100"), ("duration", "1.8"),
            ("ease", "expo.out"), ("stagger", "0.06"), ("delay", "1")] }]
    timelines :=
      [{ st := some
           { trigger := "#hero", startPos := some "top top",
             endPos := some "bottom top", scrub := true, pin := false }
         tweens :=
           [{ target := ".right-leaf", fromVars := [],
              toVars := [("y", "200")], pos := some 0 },
            { target := ".left-leaf", fromVars := [],
              toVars := [("y", "-200")], pos := some 0 },
            { target := ".arrow", fromVars := [],
              toVars := [("y", "100")], pos := some 0 }] },
       { st := some
           { trigger := "video", startPos := some (heroStartValue isMobile),
             endPos := some (heroEndValue isMobile), scrub := true,
             pin := true }
         tweens := [] }]
    deferred :=
      [{ event := "loadedmetadata", tlIdx := 1,
         tween := videoScrubTween video }] }

/-- `Hero`'s `useGSAP` callback as a fallible computation over the state
of `videoRef`: the callback ends with
`videoRef.current.onloadedmetadata = ...`, an unguarded property write on
`videoRef.current`, which throws a `TypeError` when the ref is unset. -/
def heroSetup (isMobile : Bool) (videoRef : Option VideoElem) :
    Except String Setup :=
  match videoRef with
  | none => .error "TypeError: videoRef.current is undefined"
  | some video => .ok (mkHeroSetup isMobile video)

/-! ## App (`src/App.jsx`) and the remaining sections -/

/-- The markup returned by `App`: a `main` element composing the child
components in source order, followed by the placeholder
`<div className='h-dvh bg-black '/>`. -/
def appRender : Node :=
  .elem "main" []
    [.comp "Navbar", .comp "Hero", .comp "Cocktails", .comp "About",
     .comp "Art", .comp "Menu", .comp "Contact",
     .elem "div" [("class", "h-dvh bg-black ")] []]

/-- The names of the component children of a node, in order. -/
def compChildren (n : Node) : List String :=
  match n with
  | .elem _ _ cs => cs.filterMap (fun c => match c with
      | .comp name => some name
      | _ => none)
  | _ => []

/-- Modelled from the spec: the remaining sections (Cocktails, About,
Art, Menu, Contact) are not among the sources; per the spec they are
"presentation containers" with no animation setup, so each contributes an
empty GSAP trace. -/
def sectionSetups : List Setup :=
  [{splits := [], fromTweens := [], timelines := [], deferred := []},
   {splits := [], fromTweens := [], timelines := [], deferred := []},
   {splits := [], fromTweens := [], timelines := [], deferred := []},
   {splits := [], fromTweens := [], timelines := [], deferred := []},
   {splits := [], fromTweens := [], timelines := [], deferred := []}]

/-- The GSAP setup traces of every component mounted by `App`, in mount
order, given the `isMobile` flag and the video element behind `Hero`'s
attached ref. -/
def appSetups (isMobile : Bool) (video : VideoElem) : List Setup :=
  [navbarSetup, mkHeroSetup isMobile video] ++ sectionSetups

/-- All deferred callback registrations made across the application's
setup traces. -/
def appDeferredRegs (isMobile : Bool) (video : VideoElem) :
    List DeferredReg :=
  ((appSetups isMobile video).map Setup.deferred).flatten

/-- All tweens attached synchronously (during setup, before any event
fires) to any timeline of a setup. -/
def immediateTlTweens (s : Setup) : List TlTween :=
  (s.timelines.map Timeline.tweens).flatten

/-- Does a tween drive the video element's `currentTime` property? -/
def drivesCurrentTime (t : TlTween) : Bool :=
  t.toVars.any (fun p => p.1 == "currentTime")

/-- Firing the `loadedmetadata` event: every deferred registration for
that event appends its tween to the timeline it targets. -/
def fireLoadedMetadata (s : Setup) : Setup :=
  { s with
    timelines := s.timelines.enum.map (fun (i, tl) =>
      { tl with
        tweens := tl.tweens ++
          (s.deferred.filter
            (fun r => r.event == "loadedmetadata" && r.tlIdx == i)).map
            DeferredReg.tween })
    deferred :=
      s.deferred.filter (fun r => !(r.event == "loadedmetadata")) }

/-- Is a node error markup: an element whose tag is `error` or whose
class tokens include `error`? -/
def isErrorNode (n : Node) : Bool :=
  tagOf n == "error" || matchesClass n "error"

/-- Does a tree contain any error markup? -/
def hasErrorNode (root : Node) : Bool :=
  (elemsOf root).any isErrorNode

/-- The `(href, text)` pairs of all anchor elements of a tree, in
document order. -/
def anchorsOf (root : Node) : List (String × String) :=
  ((elemsOf root).filter (fun n => tagOf n == "a")).map
    (fun n => ((attrOf n "href").getD "", textOf n))

/-- The children of the first `ul` element of a tree. -/
def ulChildren (root : Node) : List Node :=
  match (elemsOf root).filter (fun n => tagOf n == "ul") with
  | .elem _ _ cs :: _ => cs
  | _ => []

/-- A scroll-trigger configuration with its `start`/`end` positions
erased when (and only when) its trigger is the `video` element — used to
state that the `isMobile` flag influences nothing else. -/
def eraseVideoStartEnd (cfg : ScrollTriggerCfg) : ScrollTriggerCfg :=
  if cfg.trigger == "video" then
    { cfg with startPos := none, endPos := none }
  else cfg

/-- A setup with the `start`/`end` positions of video-triggered
scroll-trigger configurations erased. -/
def eraseVideoCfg (s : Setup) : Setup :=
  { s with
    timelines := s.timelines.map (fun tl =>
      { tl with st := tl.st.map eraseVideoStartEnd }) }

/-! ## Helper lemmas -/

/-- `elemsOfList` distributes over list append. -/
theorem elemsOfList_append (xs ys : List Node) :
    elemsOfList (xs ++ ys) = elemsOfList xs ++ elemsOfList ys := by
  induction xs with
  | nil => rfl
  | cons x xs ih => simp [elemsOfList, ih]

/-- The forest of rendered nav items contains no `ul` element. -/
theorem navForest_no_ul (links : List NavLink) :
    (elemsOfList (links.map navItem)).filter (fun n => tagOf n == "ul") = [] := by
  induction links with
  | nil => rfl
  | cons l ls ih =>
    show ((elemsOf (navItem l) ++ elemsOfList (ls.map navItem)).filter
      (fun n => tagOf n == "ul")) = []
    rw [List.filter_append, ih]
    rfl

/-- The anchors of the rendered nav items are exactly one
`("#" ++ id, title)` pair per entry, in order. -/
theorem navForest_anchors (links : List NavLink) :
    ((elemsOfList (links.map navItem)).filter (fun n => tagOf n == "a")).map
      (fun n => ((attrOf n "href").getD "", textOf n)) =
      links.map (fun l => ("#" ++ l.id, l.title)) := by
  induction links with
  | nil => rfl
  | cons l ls ih =>
    show (((elemsOf (navItem l) ++ elemsOfList (ls.map navItem)).filter
      (fun n => tagOf n == "a")).map
        (fun n => ((attrOf n "href").getD "", textOf n))) = _
    rw [List.filter_append, List.map_append, ih]
    show [("#" ++ l.id, textOf (.elem "a" [("href", "#" ++ l.id)] [.text l.title]))] ++ _ = _
    simp [textOf, textOfList, String.append_empty]

/-- The forest of rendered nav items contains no error markup. -/
theorem navForest_no_error (links : List NavLink) :
    (elemsOfList (links.map navItem)).any isErrorNode = false := by
  induction links with
  | nil => rfl
  | cons l ls ih =>
    show (elemsOf (navItem l) ++ elemsOfList (ls.map navItem)).any isErrorNode = false
    rw [List.any_append, ih]
    rfl

/-- The element list of the Navbar markup: the six static elements in
document order followed by the elements of the rendered nav items. -/
theorem elemsOf_navbar (links : List NavLink) :
    elemsOf (navbarRender links) =
      [navbarRender links,
       .elem "div" []
         [.elem "a" [("href", "#home"), ("class", "flex items-center gap-2")]
           [.elem "img" [("src", "/images/logo.png"), ("alt", "logo")] [],
            .elem "p" [] [.text "Velvet Pour"]],
          .elem "ul" [] (links.map navItem)],
       .elem "a" [("href", "#home"), ("class", "flex items-center gap-2")]
         [.elem "img" [("src", "/images/logo.png"), ("alt", "logo")] [],
          .elem "p" [] [.text "Velvet Pour"]],
       .elem "img" [("src", "/images/logo.png"), ("alt", "logo")] [],
       .elem "p" [] [.text "Velvet Pour"],
       .elem "ul" [] (links.map navItem)] ++ elemsOfList (links.map navItem) := by
  simp [navbarRender, elemsOf, elemsOfList]

/-! ## Claims -/

/-- Claim C1, counterexample: the claim says `Hero` creates exactly three
distinct scroll-scrubbed timelines; on a concrete mount (desktop, a
168-second video) the setup creates exactly two, because the leaf and
arrow parallax tweens share one timeline. -/
theorem c1_three_timelines_refuted :
    (scrubTimelines (mkHeroSetup false ⟨168000⟩)).length = 2 ∧
    (scrubTimelines (mkHeroSetup false ⟨168000⟩)).length ≠ 3 := by
  exact ⟨rfl, by decide⟩

/-- Claim C1 as amended: for every mount of `Hero`, the animation setup
creates exactly two distinct scroll-scrubbed timelines — one parallax
timeline on the `#hero` trigger carrying the right-leaf, left-leaf and
arrow tweens, and one timeline on the `video` trigger that is created
empty and receives its `currentTime` tween from the deferred
`loadedmetadata` callback registration. -/
theorem c1_hero_two_scrub_timelines (isMobile : Bool) (v : VideoElem) :
    (scrubTimelines (mkHeroSetup isMobile v)).length = 2 ∧
    ((mkHeroSetup isMobile v).timelines.map
      (fun tl => (tl.st.map ScrollTriggerCfg.trigger,
                  tl.tweens.map TlTween.target))) =
      [(some "#hero", [".right-leaf", ".left-leaf", ".arrow"]),
       (some "video", [])] ∧
    (mkHeroSetup isMobile v).deferred =
      [{ event := "loadedmetadata", tlIdx := 1, tween := videoScrubTween v }] := by
  exact ⟨rfl, rfl, rfl⟩

/-- Claim C2: for every entry of the `navLinks` list, in configured
order, the Navbar render output contains exactly one list item whose
anchor has href `#` ++ the entry id and whose text is the entry title
(the `ul` children are exactly the mapped `navItem`s), and the only
anchor not produced from the list is the static `#home` logo link. -/
theorem c2_navbar_links_in_order (links : List NavLink) :
    ulChildren (navbarRender links) = links.map navItem ∧
    anchorsOf (navbarRender links) =
      ("#home", "Velvet Pour") :: links.map (fun l => ("#" ++ l.id, l.title)) := by
  refine ⟨?_, ?_⟩
  · rw [ulChildren, elemsOf_navbar, List.filter_append, navForest_no_ul]
    rfl
  · rw [anchorsOf, elemsOf_navbar, List.filter_append, List.map_append,
      navForest_anchors]
    rfl

/-- Claim C3, counterexample: the claim says the setup splits exactly two
text blocks; on a concrete mount the two SplitText selectors together
match three elements of the rendered markup (one `.title` heading and two
`.subtitle` paragraphs). -/
theorem c3_two_text_blocks_refuted :
    splitMatchedBlocks (mkHeroSetup false ⟨168000⟩) heroMarkup = 3 ∧
    splitMatchedBlocks (mkHeroSetup false ⟨168000⟩) heroMarkup ≠ 2 := by
  exact ⟨rfl, by decide⟩

/-- Claim C3 as amended: for every mount of `Hero`, the setup issues
exactly two SplitText splits — the `.title` selector into chars/words and
the `.subtitle` selector into lines — where the title selector matches
one heading and the subtitle selector matches two paragraphs (three text
blocks in total), and plays exactly two entrance tweens, one over the
title characters and one over the subtitle lines. -/
theorem c3_hero_splits_and_entrance (isMobile : Bool) (v : VideoElem) :
    (mkHeroSetup isMobile v).splits =
      [⟨".title", "chars, words"⟩, ⟨".subtitle", "lines"⟩] ∧
    countClass heroMarkup "title" = 1 ∧
    countClass heroMarkup "subtitle" = 2 ∧
    splitMatchedBlocks (mkHeroSetup isMobile v) heroMarkup = 3 ∧
    (mkHeroSetup isMobile v).fromTweens.map FromTween.target =
      ["heroSplit.chars", "paragraphSplit.lines"] := by
  exact ⟨rfl, rfl, rfl, rfl, rfl⟩

/-- Claim C4: across every component setup of the application, no tween
driving the video's `currentTime` is attached synchronously; the only
deferred callback registration in the whole application is the single
`loadedmetadata` one that adds the `currentTime` tween to the video
timeline (index 1), and firing that event attaches exactly that tween to
exactly that timeline. -/
theorem c4_video_tween_only_async (isMobile : Bool) (v : VideoElem) :
    (((appSetups isMobile v).map immediateTlTweens).flatten.filter
      drivesCurrentTime) = [] ∧
    appDeferredRegs isMobile v =
      [{ event := "loadedmetadata", tlIdx := 1, tween := videoScrubTween v }] ∧
    drivesCurrentTime (videoScrubTween v) = true ∧
    ((fireLoadedMetadata (mkHeroSetup isMobile v)).timelines.map
      (fun tl => tl.tweens.filter drivesCurrentTime)) =
      [[], [videoScrubTween v]] := by
  exact ⟨rfl, rfl, rfl, rfl⟩

/-- Claim C5: `App` takes no input and its render is the constant `main`
element whose component children are, in exactly this order: Navbar,
Hero, Cocktails, About, Art, Menu, Contact. -/
theorem c5_app_fixed_order :
    appRender = .elem "main" []
      [.comp "Navbar", .comp "Hero", .comp "Cocktails", .comp "About",
       .comp "Art", .comp "Menu", .comp "Contact",
       .elem "div" [("class", "h-dvh bg-black ")] []] ∧
    compChildren appRender =
      ["Navbar", "Hero", "Cocktails", "About", "Art", "Menu", "Contact"] := by
  exact ⟨rfl, rfl⟩

/-- Claim C6: for every render of `Hero`, the output contains exactly one
`h1` element with class `title`, and its text is `MOJITO`. -/
theorem c6_hero_title_present (isMobile : Bool) :
    ((elemsOf (heroRender isMobile)).filter
      (fun n => tagOf n == "h1" && matchesClass n "title")).map textOf =
      ["MOJITO"] := rfl

/-- Claim C7: the `navLinks` list is consumed read-only — the render pass
returns it unchanged — and only the `id` and `title` fields of each entry
are read: replacing every other field leaves the render output
unchanged. -/
theorem c7_navlinks_read_only (links : List NavLink) :
    (navbarStep links).2 = links ∧
    navbarRender links =
      navbarRender (links.map
        (fun l => { id := l.id, title := l.title, extra := "" })) := by
  refine ⟨rfl, ?_⟩
  have h : navItem ∘ (fun l : NavLink =>
      ({ id := l.id, title := l.title, extra := "" } : NavLink)) = navItem :=
    funext (fun l => rfl)
  simp [navbarRender, List.map_map, h]

/-- Claim C8: no component render branches on an error condition or
produces error markup — `Hero` renders the same constant markup for
every input, `App` is a constant, and for every `navLinks` list neither
markup contains an element marked as an error. -/
theorem c8_no_error_paths (m m' : Bool) (links : List NavLink) :
    heroRender m = heroRender m' ∧
    hasErrorNode (heroRender m) = false ∧
    hasErrorNode appRender = false ∧
    hasErrorNode (navbarRender links) = false := by
  refine ⟨rfl, rfl, rfl, ?_⟩
  rw [hasErrorNode, elemsOf_navbar, List.any_append, navForest_no_error]
  rfl

/-- Claim C9: `Hero`'s setup dereferences `videoRef.current` without a
null check — when the ref is attached the setup succeeds with the full
trace, and when the ref is unset the setup throws a `TypeError`. -/
theorem c9_videoRef_deref_unguarded (isMobile : Bool) (v : VideoElem) :
    heroSetup isMobile (some v) = .ok (mkHeroSetup isMobile v) ∧
    heroSetup isMobile none =
      .error "TypeError: videoRef.current is undefined" :=
  ⟨rfl, rfl⟩

/-- Claim C10: the `isMobile` flag does not influence the rendered
markup — any two runs of `Hero` return identical markup — and the setup
traces of any two runs agree once the `start`/`end` positions of the
video scroll-trigger are erased, while the flag does change those two
positions. -/
theorem c10_isMobile_noninterference (m m' : Bool) (v : VideoElem) :
    heroRender m = heroRender m' ∧
    eraseVideoCfg (mkHeroSetup m v) = eraseVideoCfg (mkHeroSetup m' v) ∧
    heroStartValue true ≠ heroStartValue false ∧
    heroEndValue true ≠ heroEndValue false := by
  refine ⟨rfl, ?_, by decide, by decide⟩
  cases m <;> cases m' <;> rfl
